import Mathlib

set_option maxHeartbeats 1000000

/-!
Verification of the batch-action backend (src/Backend/app.py) against its
specification.  The Python handlers are shallowly embedded: pure helpers become
Lean functions, the per-request loops become structural recursion over the
attendee list, the external Twitter client becomes a record of response
functions (an external call that raises is modelled as `Except.error` carrying
the exception text), and `time.sleep` / client invocations are recorded in an
event trace so that claims about pacing and about "the action was never
invoked" are statable.
-/

namespace Backend

/-- ASCII model of the regex class `\w` (Python word character): letters,
digits and underscore. -/
def isWordChar (c : Char) : Bool := c.isAlphanum || c = '_'

/-- Consume the literal `lit` from the front of `l`; return the rest on
success.  This models matching a literal part of a regex pattern at a fixed
position. -/
def dropLit : List Char → List Char → Option (List Char)
  | [], l => some l
  | _ :: _, [] => none
  | c :: cs, d :: ds => if c = d then dropLit cs ds else none

/-- Model of matching the regex `<lit>(\d+)` at the current position: the
literal `lit`, then a greedy non-empty digit group, which is returned. -/
def matchLitDigits (lit : String) (l : List Char) : Option (List Char) :=
  match dropLit lit.toList l with
  | none => none
  | some r =>
    let d := r.takeWhile Char.isDigit
    if d = [] then none else some d

/-- Model of matching the regex `<host>\w+/status/(\d+)` at the current
position.  Since `/` is not a word character, the greedy `\w+` can only be
the maximal word-character run (any shorter split is followed by a word
character, never by `/`), so no backtracking is needed. -/
def matchHostUserStatus (host : String) (l : List Char) : Option (List Char) :=
  match dropLit host.toList l with
  | none => none
  | some r1 =>
    let w := r1.takeWhile isWordChar
    if w = [] then none
    else
      match dropLit "/status/".toList (r1.dropWhile isWordChar) with
      | none => none
      | some r2 =>
        let d := r2.takeWhile Char.isDigit
        if d = [] then none else some d

/-- Model of `re.search`: try the position matcher `m` at every start
position of `l`, leftmost first. -/
def searchP (m : List Char → Option (List Char)) : List Char → Option (List Char)
  | [] => m []
  | c :: cs =>
    match m (c :: cs) with
    | some r => some r
    | none => searchP m cs

/-- Position matcher for the first source pattern `status/(\d+)`. -/
def matchP1 : List Char → Option (List Char) := matchLitDigits "status/"

/-- Position matcher for the second source pattern `twitter\.com/\w+/status/(\d+)`. -/
def matchP2 : List Char → Option (List Char) := matchHostUserStatus "twitter.com/"

/-- Position matcher for the third source pattern `twitter\.com/status/(\d+)`. -/
def matchP3 : List Char → Option (List Char) := matchLitDigits "twitter.com/status/"

/-- Position matcher for the fourth source pattern `x\.com/\w+/status/(\d+)`. -/
def matchP4 : List Char → Option (List Char) := matchHostUserStatus "x.com/"

/-- Embedding of `extract_tweet_id` (app.py lines 550-567): try the four
patterns in order with `re.search` and return the first group of the first
match, else `None`.  The body is total (a regex search on a string cannot
raise), so the `try/except` wrapper's `except` branch is unreachable and the
embedding returns `Option String` directly. -/
def extract_tweet_id (post_link : String) : Option String :=
  let l := post_link.toList
  match searchP matchP1 l with
  | some d => some (String.mk d)
  | none =>
  match searchP matchP2 l with
  | some d => some (String.mk d)
  | none =>
  match searchP matchP3 l with
  | some d => some (String.mk d)
  | none =>
  match searchP matchP4 l with
  | some d => some (String.mk d)
  | none => none

/-- Modelled from the claim (refinement comparison definition, C10): the
simplified extractor that searches only the single pattern `status/(\d+)`
and returns its first captured digit group. -/
def simple_extract (post_link : String) : Option String :=
  (searchP matchP1 post_link.toList).map String.mk

/-- One attendee record of a `TwitterActionRequest`: the handlers read exactly
`attendee.get('username', '')` and `attendee.get('post_link', '')`, so the
embedding keeps just those two strings (a missing key is the empty string). -/
structure Attendee where
  username : String
  post_link : String
deriving DecidableEq

/-- Python's `x or default` for an `Optional[str] x`: `None` and the empty
string are falsy, any other string is returned as is. -/
def pyOrStr (x : Option String) (default : String) : String :=
  match x with
  | none => default
  | some s => if s = "" then default else s

/-- Model of Python `username.replace('@', '')`: remove every occurrence of
the (single-character) pattern. -/
def removeAtSigns (u : String) : String :=
  String.mk (u.toList.filter (fun c => c ≠ '@'))

/-- Status strings used in the per-item result dicts. -/
inductive Status where
  | retweeted | liked | commented | quoted | failed
deriving DecidableEq

/-- One per-item result dict.  The source dicts carry different key sets per
branch; absent keys are `none` here. -/
structure Outcome where
  username : String
  status : Status
  tweet_id : Option String := none
  error : Option String := none
  message : Option String := none
  comment_id : Option String := none
  comment_text : Option String := none
  original_tweet_id : Option String := none
  quote_tweet_id : Option Nat := none
  quote_text : Option String := none
deriving DecidableEq

/-- Return value of `twitter_client.post_tweet`: a dict with a `success`
flag, the created tweet id, and possibly an `error` message. -/
structure PostResult where
  success : Bool
  tweet_id : String := ""
  error : Option String := none
deriving DecidableEq

/-- The external social client, embedded as a record of response functions.
A call that raises an exception is `Except.error` with the exception text
`str(e)`; a normal return is `Except.ok`.  `api` is whether `client.api`
(the OAuth 1.1 handle) is not `None`. -/
structure TwitterClient where
  is_operational : Bool
  api : Bool
  retweet_tweet : String → Except String Bool
  like_tweet : String → Except String Bool
  post_tweet : String → String → Except String PostResult
  update_status : String → Except String Nat

/-- Observable external events of one request: each client action call with
its argument(s), and each `time.sleep(n)`. -/
inductive Ev where
  | callRetweet (tweet_id : String)
  | callLike (tweet_id : String)
  | callPost (text : String) (reply_to : String)
  | callUpdateStatus (text : String)
  | sleep (n : Nat)
deriving DecidableEq

/-- Top-level JSON response of a batch handler: either the short-circuit
`{"success": False, "error": ...}` or the final report with the success
count, the failed count, `total_attempted` (present only for quotes) and the
per-item results. -/
inductive BatchResponse where
  | failure (error : String)
  | report (succCount failCount : Nat) (total_attempted : Option Nat)
      (results : List Outcome)
deriving DecidableEq

/-- Results list of a response (empty for the short-circuit failure). -/
def resultsOf : BatchResponse → List Outcome
  | .failure _ => []
  | .report _ _ _ rs => rs

/-- Whether the response is the full report (the batch loop ran). -/
def isReport : BatchResponse → Bool
  | .failure _ => false
  | .report _ _ _ _ => true

/-- The failed-item dict `{'username': u, 'status': 'failed', 'error': e}`. -/
def failedOut (u e : String) : Outcome :=
  { username := u, status := .failed, error := some e }

/-- The composed comment text (app.py lines 413-414):
`clean_username = username.replace('@', '')`;
`comment_text = f"@{clean_username} {custom_message}"` with
`custom_message = request.message or "Great post! 👍"`. -/
def comment_text (message : Option String) (a : Attendee) : String :=
  "@" ++ removeAtSigns a.username ++ " " ++ pyOrStr message "Great post! 👍"

/-- The composed quote text (app.py lines 503-504):
`quote_text = f"{custom_message}\n\n🔁 Via @{clean_username}"` with
`custom_message = request.message or "Check this out! 👀"`. -/
def quote_text (message : Option String) (a : Attendee) : String :=
  pyOrStr message "Check this out! 👀" ++ "\n\n🔁 Via @" ++ removeAtSigns a.username

/-- One iteration of the retweet loop body (app.py lines 236-286): returns
the appended result dict, the increment of `successful_retweets`, and the
external events of this iteration.  The `except` branch catches a fault of
the client call, records it, and skips the `time.sleep(2)`. -/
def retweetItem (c : TwitterClient) (a : Attendee) : Outcome × Nat × List Ev :=
  if a.post_link = "" then
    (failedOut a.username "No post link available", 0, [])
  else
    match extract_tweet_id a.post_link with
    | none => (failedOut a.username "Could not extract tweet ID from link", 0, [])
    | some tid =>
      match c.retweet_tweet tid with
      | .ok true =>
        ({ username := a.username, status := .retweeted, tweet_id := some tid,
           message := some ("Successfully retweeted post from " ++ a.username) },
         1, [.callRetweet tid, .sleep 2])
      | .ok false =>
        (failedOut a.username "Retweet failed", 0, [.callRetweet tid, .sleep 2])
      | .error e => (failedOut a.username e, 0, [.callRetweet tid])

/-- One iteration of the like loop body (app.py lines 312-362). -/
def likeItem (c : TwitterClient) (a : Attendee) : Outcome × Nat × List Ev :=
  if a.post_link = "" then
    (failedOut a.username "No post link available", 0, [])
  else
    match extract_tweet_id a.post_link with
    | none => (failedOut a.username "Could not extract tweet ID from link", 0, [])
    | some tid =>
      match c.like_tweet tid with
      | .ok true =>
        ({ username := a.username, status := .liked, tweet_id := some tid,
           message := some ("Successfully liked post from " ++ a.username) },
         1, [.callLike tid, .sleep 2])
      | .ok false =>
        (failedOut a.username "Like failed", 0, [.callLike tid, .sleep 2])
      | .error e => (failedOut a.username e, 0, [.callLike tid])

/-- One iteration of the comment loop body (app.py lines 388-447).  The
`time.sleep(3)` runs after both the success and the explicit-failure branch
of `result['success']`; only the `except` branch skips it. -/
def commentItem (c : TwitterClient) (message : Option String) (a : Attendee) :
    Outcome × Nat × List Ev :=
  if a.post_link = "" then
    (failedOut a.username "No post link available", 0, [])
  else
    match extract_tweet_id a.post_link with
    | none => (failedOut a.username "Could not extract tweet ID from link", 0, [])
    | some tid =>
      let text := comment_text message a
      match c.post_tweet text tid with
      | .ok r =>
        if r.success then
          ({ username := a.username, status := .commented, tweet_id := some tid,
             comment_id := some r.tweet_id, comment_text := some text,
             message := some ("Successfully commented on post from " ++ a.username) },
           1, [.callPost text tid, .sleep 3])
        else
          (failedOut a.username ((r.error).getD "Unknown error"), 0,
           [.callPost text tid, .sleep 3])
      | .error e => (failedOut a.username e, 0, [.callPost text tid])

/-- One iteration of the quote loop body (app.py lines 478-534).  The call
`api.update_status(status=quote_text)` either returns the created tweet or
raises, so unlike the other loops there is no explicit-failure branch and the
`time.sleep(3)` runs only after a success. -/
def quoteItem (c : TwitterClient) (message : Option String) (a : Attendee) :
    Outcome × Nat × List Ev :=
  if a.post_link = "" then
    (failedOut a.username "No post link available", 0, [])
  else
    match extract_tweet_id a.post_link with
    | none => (failedOut a.username "Could not extract tweet ID from link", 0, [])
    | some tid =>
      let text := quote_text message a
      match c.update_status text with
      | .ok newId =>
        ({ username := a.username, status := .quoted, original_tweet_id := some tid,
           quote_tweet_id := some newId, quote_text := some text,
           message := some ("Successfully quoted post from " ++ a.username) },
         1, [.callUpdateStatus text, .sleep 3])
      | .error e => (failedOut a.username e, 0, [.callUpdateStatus text])

/-- The serial `for attendee in request.attendees` loop: results in input
order, the total success-counter increment, and the concatenated event
trace.  Each iteration is independent of the accumulated state, exactly as
in the source loops. -/
def runItems (item : Attendee → Outcome × Nat × List Ev) :
    List Attendee → List Outcome × Nat × List Ev
  | [] => ([], 0, [])
  | a :: rest =>
    let r := item a
    let rs := runItems item rest
    (r.1 :: rs.1, r.2.1 + rs.2.1, r.2.2 ++ rs.2.2)

/-- Handler `retweet_posts` (app.py lines 222-296): short-circuit when the
client is not operational, else run the loop and report
`failed_count = len(attendees) - successful_retweets`. -/
def retweet_posts (c : TwitterClient) (attendees : List Attendee) :
    BatchResponse × List Ev :=
  if c.is_operational = false then
    (.failure "Twitter client not operational", [])
  else
    let r := runItems (retweetItem c) attendees
    (.report r.2.1 (attendees.length - r.2.1) none r.1, r.2.2)

/-- Handler `like_posts` (app.py lines 298-372). -/
def like_posts (c : TwitterClient) (attendees : List Attendee) :
    BatchResponse × List Ev :=
  if c.is_operational = false then
    (.failure "Twitter client not operational", [])
  else
    let r := runItems (likeItem c) attendees
    (.report r.2.1 (attendees.length - r.2.1) none r.1, r.2.2)

/-- Handler `post_comments` (app.py lines 374-459). -/
def post_comments (c : TwitterClient) (message : Option String)
    (attendees : List Attendee) : BatchResponse × List Ev :=
  if c.is_operational = false then
    (.failure "Twitter client not operational", [])
  else
    let r := runItems (commentItem c message) attendees
    (.report r.2.1 (attendees.length - r.2.1) none r.1, r.2.2)

/-- Handler `post_quote_tweets` (app.py lines 461-548): the pre-check is
`if not twitter_client.api` (the OAuth 1.1 capability), not
`is_operational()`, and the report also carries `total_attempted`. -/
def post_quote_tweets (c : TwitterClient) (message : Option String)
    (attendees : List Attendee) : BatchResponse × List Ev :=
  if c.api = false then
    (.failure "Twitter OAuth 1.1 not configured for quote tweets", [])
  else
    let r := runItems (quoteItem c message) attendees
    (.report r.2.1 (attendees.length - r.2.1) (some attendees.length) r.1, r.2.2)

/-- JSON response of a discovery handler; `records` is the engine's opaque
record list. -/
structure DiscoveryResponse (α : Type) where
  success : Bool
  records : List α
  total : Nat
  requested_limit : Int

/-- Handler `discover_events` (app.py lines 166-193): clamp
`max_results` with two sequential `if`s, delegate to the engine with the
clamped value, and echo it as `requested_limit`.  The engine's other filter
arguments do not affect the claims and are folded into the opaque `engine`
function. -/
def discover_events {α : Type} (engine : Int → List α) (max_results : Int) :
    DiscoveryResponse α :=
  let m1 := if max_results > 100 then 100 else max_results
  let m2 := if m1 < 1 then 1 else m1
  let events := engine m2
  { success := true, records := events, total := events.length,
    requested_limit := m2 }

/-- Handler `discover_attendees` (app.py lines 195-220): identical clamping
and shaping. -/
def discover_attendees {α : Type} (engine : Int → List α) (max_results : Int) :
    DiscoveryResponse α :=
  let m1 := if max_results > 100 then 100 else max_results
  let m2 := if m1 < 1 then 1 else m1
  let attendees := engine m2
  { success := true, records := attendees, total := attendees.length,
    requested_limit := m2 }

/-- Predicate of the count invariant: a report's success and failed counts
sum to the given batch size; the short-circuit failure has no report. -/
def countsOk (resp : BatchResponse) (n : Nat) : Prop :=
  match resp with
  | .failure _ => True
  | .report s f _ _ => s + f = n

/-- Predicate of result alignment: a report carries exactly one outcome per
input attendee, in input order (positional equality of usernames). -/
def resultsAligned (resp : BatchResponse) (attendees : List Attendee) : Prop :=
  match resp with
  | .failure _ => True
  | .report _ _ _ rs => rs.map Outcome.username = attendees.map Attendee.username

/-- Sum of the `time.sleep` durations in a trace. -/
def sleptTotal : List Ev → Nat
  | [] => 0
  | .sleep n :: rest => n + sleptTotal rest
  | _ :: rest => sleptTotal rest

/-- Sample client: fully configured, every call succeeds. -/
def clientOk : TwitterClient :=
  { is_operational := true, api := true,
    retweet_tweet := fun _ => .ok true,
    like_tweet := fun _ => .ok true,
    post_tweet := fun _ _ => .ok { success := true, tweet_id := "900" },
    update_status := fun _ => .ok 901 }

/-- Sample client: `is_operational()` is false. -/
def clientDown : TwitterClient := { clientOk with is_operational := false }

/-- Sample client: operational, but `client.api` is `None`. -/
def clientNoApi : TwitterClient := { clientOk with api := false }

/-- Sample client: every call raises an exception with text "boom" when the
target tweet id is "2", and succeeds otherwise. -/
def clientFault2 : TwitterClient :=
  { clientOk with
    retweet_tweet := fun tid => if tid = "2" then .error "boom" else .ok true,
    like_tweet := fun tid => if tid = "2" then .error "boom" else .ok true,
    post_tweet := fun _ tid => if tid = "2" then .error "boom"
      else .ok { success := true, tweet_id := "900" } }

/-- Sample client: the retweet call returns `False` (explicit failure,
no exception). -/
def clientReject : TwitterClient :=
  { clientOk with retweet_tweet := fun _ => .ok false }

/-- Sample batch of three attendees with extractable tweet ids 1, 2, 3. -/
def att3 : List Attendee :=
  [ { username := "u1", post_link := "https://x.com/u1/status/1" },
    { username := "u2", post_link := "https://x.com/u2/status/2" },
    { username := "u3", post_link := "https://x.com/u3/status/3" } ]

/-- Sample batch of one attendee with extractable tweet id 1. -/
def attOne : List Attendee :=
  [ { username := "u", post_link := "https://x.com/u/status/1" } ]

theorem runItems_results (item : Attendee → Outcome × Nat × List Ev)
    (l : List Attendee) :
    (runItems item l).1 = l.map (fun a => (item a).1) := by
  induction l with
  | nil => rfl
  | cons a rest ih => simp [runItems, ih]

theorem runItems_trace (item : Attendee → Outcome × Nat × List Ev)
    (l : List Attendee) :
    (runItems item l).2.2 = (l.map (fun a => (item a).2.2)).flatten := by
  induction l with
  | nil => rfl
  | cons a rest ih => simp [runItems, ih]

theorem runItems_succ_le (item : Attendee → Outcome × Nat × List Ev)
    (h : ∀ a, (item a).2.1 ≤ 1) (l : List Attendee) :
    (runItems item l).2.1 ≤ l.length := by
  induction l with
  | nil => simp [runItems]
  | cons a rest ih =>
    simp only [runItems, List.length_cons]
    have := h a
    omega

theorem retweetItem_succ_le (c : TwitterClient) (a : Attendee) :
    (retweetItem c a).2.1 ≤ 1 := by
  unfold retweetItem
  repeat' split
  all_goals first | decide | simp

theorem likeItem_succ_le (c : TwitterClient) (a : Attendee) :
    (likeItem c a).2.1 ≤ 1 := by
  unfold likeItem
  repeat' split
  all_goals first | decide | simp

theorem commentItem_succ_le (c : TwitterClient) (m : Option String) (a : Attendee) :
    (commentItem c m a).2.1 ≤ 1 := by
  unfold commentItem
  repeat' split
  all_goals try (dsimp only [])
  all_goals repeat' split
  all_goals first | decide | simp

theorem quoteItem_succ_le (c : TwitterClient) (m : Option String) (a : Attendee) :
    (quoteItem c m a).2.1 ≤ 1 := by
  unfold quoteItem
  repeat' split
  all_goals try (dsimp only [])
  all_goals repeat' split
  all_goals first | decide | simp

theorem retweetItem_username (c : TwitterClient) (a : Attendee) :
    ((retweetItem c a).1).username = a.username := by
  unfold retweetItem
  repeat' split
  all_goals first | rfl | simp [failedOut]

theorem likeItem_username (c : TwitterClient) (a : Attendee) :
    ((likeItem c a).1).username = a.username := by
  unfold likeItem
  repeat' split
  all_goals first | rfl | simp [failedOut]

theorem commentItem_username (c : TwitterClient) (m : Option String) (a : Attendee) :
    ((commentItem c m a).1).username = a.username := by
  unfold commentItem
  repeat' split
  all_goals try (dsimp only [])
  all_goals repeat' split
  all_goals first | rfl | simp [failedOut]

theorem quoteItem_username (c : TwitterClient) (m : Option String) (a : Attendee) :
    ((quoteItem c m a).1).username = a.username := by
  unfold quoteItem
  repeat' split
  all_goals try (dsimp only [])
  all_goals repeat' split
  all_goals first | rfl | simp [failedOut]

theorem countsOk_report (item : Attendee → Outcome × Nat × List Ev)
    (att : List Attendee) (t : Option Nat) (h : ∀ a, (item a).2.1 ≤ 1) :
    countsOk (.report (runItems item att).2.1
      (att.length - (runItems item att).2.1) t (runItems item att).1)
      att.length := by
  have hs := runItems_succ_le item h att
  simp only [countsOk]
  omega

theorem resultsAligned_report (item : Attendee → Outcome × Nat × List Ev)
    (att : List Attendee) (s f : Nat) (t : Option Nat)
    (h : ∀ a, ((item a).1).username = a.username) :
    resultsAligned (.report s f t (runItems item att).1) att := by
  simp only [resultsAligned, runItems_results, List.map_map]
  exact List.map_congr_left (fun a _ => h a)

/-- C1: for every batch action request (retweet, like, comment, quote), the
returned report satisfies `success_count + failed_count` equals the number
of attendee records in the input list. -/
theorem C1_batch_counts (c : TwitterClient) (m : Option String)
    (att : List Attendee) :
    countsOk (retweet_posts c att).1 att.length ∧
    countsOk (like_posts c att).1 att.length ∧
    countsOk (post_comments c m att).1 att.length ∧
    countsOk (post_quote_tweets c m att).1 att.length := by
  refine ⟨?_, ?_, ?_, ?_⟩
  · cases hc : c.is_operational
    · simp [retweet_posts, hc, countsOk]
    · simp only [retweet_posts, hc, Bool.true_eq_false, if_neg, ite_false]
      exact countsOk_report _ att none (retweetItem_succ_le c)
  · cases hc : c.is_operational
    · simp [like_posts, hc, countsOk]
    · simp only [like_posts, hc, Bool.true_eq_false, if_neg, ite_false]
      exact countsOk_report _ att none (likeItem_succ_le c)
  · cases hc : c.is_operational
    · simp [post_comments, hc, countsOk]
    · simp only [post_comments, hc, Bool.true_eq_false, if_neg, ite_false]
      exact countsOk_report _ att none (commentItem_succ_le c m)
  · cases hc : c.api
    · simp [post_quote_tweets, hc, countsOk]
    · simp only [post_quote_tweets, hc, Bool.true_eq_false, if_neg, ite_false]
      exact countsOk_report _ att (some att.length) (quoteItem_succ_le c m)

/-- C2: for every batch action request that passes the client pre-check, the
results list contains exactly one outcome per input attendee and the
outcomes appear in the same order as the input attendees (positional
equality of usernames, which also forces equal lengths). -/
theorem C2_results_aligned (c : TwitterClient) (m : Option String)
    (att : List Attendee) :
    resultsAligned (retweet_posts c att).1 att ∧
    resultsAligned (like_posts c att).1 att ∧
    resultsAligned (post_comments c m att).1 att ∧
    resultsAligned (post_quote_tweets c m att).1 att := by
  refine ⟨?_, ?_, ?_, ?_⟩
  · cases hc : c.is_operational
    · simp [retweet_posts, hc, resultsAligned]
    · simp only [retweet_posts, hc, Bool.true_eq_false, if_neg, ite_false]
      exact resultsAligned_report _ att _ _ _ (retweetItem_username c)
  · cases hc : c.is_operational
    · simp [like_posts, hc, resultsAligned]
    · simp only [like_posts, hc, Bool.true_eq_false, if_neg, ite_false]
      exact resultsAligned_report _ att _ _ _ (likeItem_username c)
  · cases hc : c.is_operational
    · simp [post_comments, hc, resultsAligned]
    · simp only [post_comments, hc, Bool.true_eq_false, if_neg, ite_false]
      exact resultsAligned_report _ att _ _ _ (commentItem_username c m)
  · cases hc : c.api
    · simp [post_quote_tweets, hc, resultsAligned]
    · simp only [post_quote_tweets, hc, Bool.true_eq_false, if_neg, ite_false]
      exact resultsAligned_report _ att _ _ _ (quoteItem_username c m)

/-- C4: for every retweet, like, or comment batch request, if the client
reports itself non-operational, the handler returns the single top-level
failure, produces no per-item outcomes, and never invokes any action (the
event trace is empty). -/
theorem C4_not_operational_short_circuit (c : TwitterClient)
    (m : Option String) (att : List Attendee) (h : c.is_operational = false) :
    retweet_posts c att = (.failure "Twitter client not operational", []) ∧
    like_posts c att = (.failure "Twitter client not operational", []) ∧
    post_comments c m att = (.failure "Twitter client not operational", []) := by
  refine ⟨?_, ?_, ?_⟩ <;> simp [retweet_posts, like_posts, post_comments, h]

theorem C4_witness :
    clientDown.is_operational = false ∧
    (retweet_posts clientDown att3 =
      (.failure "Twitter client not operational", []) ∧
     like_posts clientDown att3 =
      (.failure "Twitter client not operational", []) ∧
     post_comments clientDown (some "hi") att3 =
      (.failure "Twitter client not operational", [])) :=
  ⟨rfl, C4_not_operational_short_circuit clientDown (some "hi") att3 rfl⟩

/-- C5: the quote batch endpoint checks the legacy-auth capability (the
client's `api`) independently of the general operability check: whenever it
is absent the handler returns the single top-level "not configured" failure
with no per-item attempts (empty trace), whatever `is_operational()` says. -/
theorem C5_quote_requires_legacy_auth (c : TwitterClient) (m : Option String)
    (att : List Attendee) (h : c.api = false) :
    post_quote_tweets c m att =
      (.failure "Twitter OAuth 1.1 not configured for quote tweets", []) := by
  simp [post_quote_tweets, h]

theorem C5_witness :
    clientNoApi.is_operational = true ∧ clientNoApi.api = false ∧
    post_quote_tweets clientNoApi none att3 =
      (.failure "Twitter OAuth 1.1 not configured for quote tweets", []) :=
  ⟨rfl, rfl, C5_quote_requires_legacy_auth clientNoApi none att3 rfl⟩

theorem extract_empty : extract_tweet_id "" = none := by decide

theorem post_link_ne_empty {a : Attendee} {tid : String}
    (hx : extract_tweet_id a.post_link = some tid) : ¬ a.post_link = "" := by
  intro h
  rw [h, extract_empty] at hx
  exact Option.noConfusion hx

theorem retweetItem_error (c : TwitterClient) (a : Attendee) (tid e : String)
    (hx : extract_tweet_id a.post_link = some tid)
    (he : c.retweet_tweet tid = .error e) :
    retweetItem c a = (failedOut a.username e, 0, [.callRetweet tid]) := by
  unfold retweetItem
  rw [if_neg (post_link_ne_empty hx), hx]
  dsimp only []
  rw [he]

theorem likeItem_error (c : TwitterClient) (a : Attendee) (tid e : String)
    (hx : extract_tweet_id a.post_link = some tid)
    (he : c.like_tweet tid = .error e) :
    likeItem c a = (failedOut a.username e, 0, [.callLike tid]) := by
  unfold likeItem
  rw [if_neg (post_link_ne_empty hx), hx]
  dsimp only []
  rw [he]

theorem commentItem_error (c : TwitterClient) (m : Option String) (a : Attendee)
    (tid e : String) (hx : extract_tweet_id a.post_link = some tid)
    (he : c.post_tweet (comment_text m a) tid = .error e) :
    commentItem c m a = (failedOut a.username e, 0, [.callPost (comment_text m a) tid]) := by
  unfold commentItem
  rw [if_neg (post_link_ne_empty hx), hx]
  dsimp only []
  rw [he]

theorem quoteItem_error (c : TwitterClient) (m : Option String) (a : Attendee)
    (tid e : String) (hx : extract_tweet_id a.post_link = some tid)
    (he : c.update_status (quote_text m a) = .error e) :
    quoteItem c m a = (failedOut a.username e, 0, [.callUpdateStatus (quote_text m a)]) := by
  unfold quoteItem
  rw [if_neg (post_link_ne_empty hx), hx]
  dsimp only []
  rw [he]

theorem retweet_results_eq (c : TwitterClient) (att : List Attendee)
    (hop : c.is_operational = true) :
    resultsOf (retweet_posts c att).1 = att.map (fun x => (retweetItem c x).1) := by
  simp [retweet_posts, hop, resultsOf, runItems_results]

theorem like_results_eq (c : TwitterClient) (att : List Attendee)
    (hop : c.is_operational = true) :
    resultsOf (like_posts c att).1 = att.map (fun x => (likeItem c x).1) := by
  simp [like_posts, hop, resultsOf, runItems_results]

theorem comment_results_eq (c : TwitterClient) (m : Option String)
    (att : List Attendee) (hop : c.is_operational = true) :
    resultsOf (post_comments c m att).1 = att.map (fun x => (commentItem c m x).1) := by
  simp [post_comments, hop, resultsOf, runItems_results]

theorem quote_results_eq (c : TwitterClient) (m : Option String)
    (att : List Attendee) (hop : c.api = true) :
    resultsOf (post_quote_tweets c m att).1 = att.map (fun x => (quoteItem c m x).1) := by
  simp [post_quote_tweets, hop, resultsOf, runItems_results]

/-- C3: for every batch and every item in it, an unexpected fault raised by
the external action call during that item is caught at the per-item boundary
and recorded as that item's failed outcome with the error text as detail,
and every other item is still processed and reported: the results list keeps
one entry per input item, in place.  Stated for each of the four endpoints,
under its pre-check. -/
theorem C3_per_item_fault (c : TwitterClient) (m : Option String)
    (att : List Attendee) (i : Nat) (a : Attendee) (tid e : String)
    (ha : att[i]? = some a)
    (hx : extract_tweet_id a.post_link = some tid) :
    (c.is_operational = true → c.retweet_tweet tid = .error e →
      (resultsOf (retweet_posts c att).1)[i]? = some (failedOut a.username e) ∧
      (resultsOf (retweet_posts c att).1).length = att.length) ∧
    (c.is_operational = true → c.like_tweet tid = .error e →
      (resultsOf (like_posts c att).1)[i]? = some (failedOut a.username e) ∧
      (resultsOf (like_posts c att).1).length = att.length) ∧
    (c.is_operational = true → c.post_tweet (comment_text m a) tid = .error e →
      (resultsOf (post_comments c m att).1)[i]? = some (failedOut a.username e) ∧
      (resultsOf (post_comments c m att).1).length = att.length) ∧
    (c.api = true → c.update_status (quote_text m a) = .error e →
      (resultsOf (post_quote_tweets c m att).1)[i]? = some (failedOut a.username e) ∧
      (resultsOf (post_quote_tweets c m att).1).length = att.length) := by
  refine ⟨fun hop he => ?_, fun hop he => ?_, fun hop he => ?_, fun hop he => ?_⟩
  · rw [retweet_results_eq c att hop]
    refine ⟨?_, by rw [List.length_map]⟩
    rw [List.getElem?_map, ha, Option.map_some']
    rw [retweetItem_error c a tid e hx he]
  · rw [like_results_eq c att hop]
    refine ⟨?_, by rw [List.length_map]⟩
    rw [List.getElem?_map, ha, Option.map_some']
    rw [likeItem_error c a tid e hx he]
  · rw [comment_results_eq c m att hop]
    refine ⟨?_, by rw [List.length_map]⟩
    rw [List.getElem?_map, ha, Option.map_some']
    rw [commentItem_error c m a tid e hx he]
  · rw [quote_results_eq c m att hop]
    refine ⟨?_, by rw [List.length_map]⟩
    rw [List.getElem?_map, ha, Option.map_some']
    rw [quoteItem_error c m a tid e hx he]

theorem C3_witness :
    att3[1]? = some { username := "u2", post_link := "https://x.com/u2/status/2" } ∧
    extract_tweet_id "https://x.com/u2/status/2" = some "2" ∧
    clientFault2.is_operational = true ∧
    clientFault2.retweet_tweet "2" = .error "boom" ∧
    (resultsOf (retweet_posts clientFault2 att3).1)[1]? =
      some (failedOut "u2" "boom") ∧
    (resultsOf (retweet_posts clientFault2 att3).1).length = 3 ∧
    (resultsOf (retweet_posts clientFault2 att3).1)[0]? =
      some { username := "u1", status := .retweeted, tweet_id := some "1",
             message := some "Successfully retweeted post from u1" } ∧
    (resultsOf (retweet_posts clientFault2 att3).1)[2]? =
      some { username := "u3", status := .retweeted, tweet_id := some "3",
             message := some "Successfully retweeted post from u3" } := by
  have h := (C3_per_item_fault clientFault2 none att3 1
    { username := "u2", post_link := "https://x.com/u2/status/2" } "2" "boom"
    (by decide) (by decide)).1 rfl rfl
  exact ⟨by decide, by decide, rfl, rfl, h.1, h.2.trans (by decide),
    by decide, by decide⟩

theorem retweetItem_skip (c : TwitterClient) (a : Attendee)
    (hx : extract_tweet_id a.post_link = none) :
    (retweetItem c a).2.2 = [] := by
  by_cases h : a.post_link = "" <;> simp [retweetItem, h, hx]

theorem likeItem_skip (c : TwitterClient) (a : Attendee)
    (hx : extract_tweet_id a.post_link = none) :
    (likeItem c a).2.2 = [] := by
  by_cases h : a.post_link = "" <;> simp [likeItem, h, hx]

theorem commentItem_skip (c : TwitterClient) (m : Option String) (a : Attendee)
    (hx : extract_tweet_id a.post_link = none) :
    (commentItem c m a).2.2 = [] := by
  by_cases h : a.post_link = "" <;> simp [commentItem, h, hx]

theorem quoteItem_skip (c : TwitterClient) (m : Option String) (a : Attendee)
    (hx : extract_tweet_id a.post_link = none) :
    (quoteItem c m a).2.2 = [] := by
  by_cases h : a.post_link = "" <;> simp [quoteItem, h, hx]

theorem retweetItem_ok_trace (c : TwitterClient) (a : Attendee) (tid : String)
    (b : Bool) (hx : extract_tweet_id a.post_link = some tid)
    (hr : c.retweet_tweet tid = .ok b) :
    (retweetItem c a).2.2 = [.callRetweet tid, .sleep 2] := by
  unfold retweetItem
  rw [if_neg (post_link_ne_empty hx), hx]
  dsimp only []
  rw [hr]
  cases b <;> rfl

theorem likeItem_ok_trace (c : TwitterClient) (a : Attendee) (tid : String)
    (b : Bool) (hx : extract_tweet_id a.post_link = some tid)
    (hr : c.like_tweet tid = .ok b) :
    (likeItem c a).2.2 = [.callLike tid, .sleep 2] := by
  unfold likeItem
  rw [if_neg (post_link_ne_empty hx), hx]
  dsimp only []
  rw [hr]
  cases b <;> rfl

theorem commentItem_ok_trace (c : TwitterClient) (m : Option String)
    (a : Attendee) (tid : String) (r : PostResult)
    (hx : extract_tweet_id a.post_link = some tid)
    (hr : c.post_tweet (comment_text m a) tid = .ok r) :
    (commentItem c m a).2.2 = [.callPost (comment_text m a) tid, .sleep 3] := by
  unfold commentItem
  rw [if_neg (post_link_ne_empty hx), hx]
  dsimp only []
  rw [hr]
  obtain ⟨rs, rt, re⟩ := r
  cases rs <;> rfl

theorem quoteItem_ok_trace (c : TwitterClient) (m : Option String)
    (a : Attendee) (tid : String) (n : Nat)
    (hx : extract_tweet_id a.post_link = some tid)
    (hr : c.update_status (quote_text m a) = .ok n) :
    (quoteItem c m a).2.2 = [.callUpdateStatus (quote_text m a), .sleep 3] := by
  unfold quoteItem
  rw [if_neg (post_link_ne_empty hx), hx]
  dsimp only []
  rw [hr]

/-- C6 counterexample: the claim says no pacing delay is charged after a
failed dispatch, but in the retweet loop the `time.sleep(2)` runs after the
explicit-failure branch too.  With a client whose retweet call returns
`False`, the one-item batch yields a failed outcome and its trace still
contains the 2 time-unit sleep after the dispatch. -/
theorem C6_counterexample :
    resultsOf (retweet_posts clientReject attOne).1 =
      [failedOut "u" "Retweet failed"] ∧
    (retweet_posts clientReject attOne).2 = [.callRetweet "1", .sleep 2] ∧
    sleptTotal (retweet_posts clientReject attOne).2 = 2 ∧ (2 : Nat) ≠ 0 := by
  refine ⟨by decide, by decide, by decide, by decide⟩

/-- C6 (amended): within a batch, the pacing delay (2 time-units for
retweet/like, 3 for comment/quote) is charged immediately after a dispatch
that returns normally — whether it succeeded or reported failure — and
before the next item is processed (the batch trace is the in-order
concatenation of the per-item traces); no delay is charged for an item
skipped for an empty post link or an unextractable identifier, nor for an
item whose call raises.  For quotes a failed dispatch always raises, so
there the delay does follow only successful dispatches. -/
theorem C6_pacing_amended (c : TwitterClient) (m : Option String)
    (att : List Attendee) (a : Attendee) (tid e : String) (b : Bool)
    (r : PostResult) (n : Nat) :
    (c.is_operational = true →
      (retweet_posts c att).2 = (att.map (fun x => (retweetItem c x).2.2)).flatten ∧
      (like_posts c att).2 = (att.map (fun x => (likeItem c x).2.2)).flatten ∧
      (post_comments c m att).2 = (att.map (fun x => (commentItem c m x).2.2)).flatten) ∧
    (c.api = true →
      (post_quote_tweets c m att).2 = (att.map (fun x => (quoteItem c m x).2.2)).flatten) ∧
    (extract_tweet_id a.post_link = none →
      (retweetItem c a).2.2 = [] ∧ (likeItem c a).2.2 = [] ∧
      (commentItem c m a).2.2 = [] ∧ (quoteItem c m a).2.2 = []) ∧
    (extract_tweet_id a.post_link = some tid →
      (c.retweet_tweet tid = .ok b →
        (retweetItem c a).2.2 = [.callRetweet tid, .sleep 2]) ∧
      (c.retweet_tweet tid = .error e →
        (retweetItem c a).2.2 = [.callRetweet tid]) ∧
      (c.like_tweet tid = .ok b →
        (likeItem c a).2.2 = [.callLike tid, .sleep 2]) ∧
      (c.like_tweet tid = .error e →
        (likeItem c a).2.2 = [.callLike tid]) ∧
      (c.post_tweet (comment_text m a) tid = .ok r →
        (commentItem c m a).2.2 = [.callPost (comment_text m a) tid, .sleep 3]) ∧
      (c.post_tweet (comment_text m a) tid = .error e →
        (commentItem c m a).2.2 = [.callPost (comment_text m a) tid]) ∧
      (c.update_status (quote_text m a) = .ok n →
        (quoteItem c m a).2.2 = [.callUpdateStatus (quote_text m a), .sleep 3]) ∧
      (c.update_status (quote_text m a) = .error e →
        (quoteItem c m a).2.2 = [.callUpdateStatus (quote_text m a)])) := by
  refine ⟨fun hop => ⟨?_, ?_, ?_⟩, fun hop => ?_, fun hx => ?_, fun hx => ?_⟩
  · simp [retweet_posts, hop, runItems_trace]
  · simp [like_posts, hop, runItems_trace]
  · simp [post_comments, hop, runItems_trace]
  · simp [post_quote_tweets, hop, runItems_trace]
  · exact ⟨retweetItem_skip c a hx, likeItem_skip c a hx,
      commentItem_skip c m a hx, quoteItem_skip c m a hx⟩
  · refine ⟨fun hr => retweetItem_ok_trace c a tid b hx hr,
      fun hr => ?_, fun hr => likeItem_ok_trace c a tid b hx hr,
      fun hr => ?_, fun hr => commentItem_ok_trace c m a tid r hx hr,
      fun hr => ?_, fun hr => quoteItem_ok_trace c m a tid n hx hr,
      fun hr => ?_⟩
    · rw [retweetItem_error c a tid e hx hr]
    · rw [likeItem_error c a tid e hx hr]
    · rw [commentItem_error c m a tid e hx hr]
    · rw [quoteItem_error c m a tid e hx hr]

theorem C6_witness :
    (retweet_posts clientOk att3).2 =
      [.callRetweet "1", .sleep 2, .callRetweet "2", .sleep 2,
       .callRetweet "3", .sleep 2] ∧
    (retweetItem clientOk { username := "u", post_link := "" }).2.2 = [] ∧
    (retweetItem clientFault2
      { username := "u2", post_link := "https://x.com/u2/status/2" }).2.2 =
      [.callRetweet "2"] ∧
    (commentItem clientOk none
      { username := "u", post_link := "https://x.com/u/status/1" }).2.2 =
      [.callPost "@u Great post! 👍" "1", .sleep 3] := by
  refine ⟨?_, ?_, ?_, ?_⟩
  · exact (((C6_pacing_amended clientOk none att3
      { username := "u", post_link := "" } "1" "e" true
      { success := true } 0).1 rfl).1).trans (by decide)
  · exact ((C6_pacing_amended clientOk none att3
      { username := "u", post_link := "" } "1" "e" true
      { success := true } 0).2.2.1 (by decide)).1
  · exact ((C6_pacing_amended clientFault2 none att3
      { username := "u2", post_link := "https://x.com/u2/status/2" } "2" "boom"
      true { success := true } 0).2.2.2 (by decide)).2.1 rfl
  · exact (((C6_pacing_amended clientOk none att3
      { username := "u", post_link := "https://x.com/u/status/1" } "1" "e" true
      { success := true, tweet_id := "900" } 0).2.2.2 (by decide)).2.2.2.2.1
        rfl).trans (by decide)

/-- C7 counterexample: the claim predicts the composed comment text from the
username with only its leading "@" stripped and from the message override
whenever it is present.  The code instead removes every "@"
(`username.replace('@', '')`) and falls back to the default for a present
but empty override (Python `or`).  Username "a@b" with no message composes
"@ab Great post! 👍", not the claimed "@a@b Great post! 👍"; username
"@alice" with the present override "" composes "@alice Great post! 👍", not
the claimed "@alice ". -/
theorem C7_counterexample :
    (post_comments clientOk none
      [{ username := "a@b", post_link := "https://x.com/a/status/7" }]).2 =
      [.callPost "@ab Great post! 👍" "7", .sleep 3] ∧
    "@ab Great post! 👍" ≠ "@a@b Great post! 👍" ∧
    (post_comments clientOk (some "")
      [{ username := "@alice", post_link := "https://x.com/alice/status/7" }]).2 =
      [.callPost "@alice Great post! 👍" "7", .sleep 3] ∧
    "@alice Great post! 👍" ≠ "@alice " := by
  exact ⟨by decide, by decide, by decide, by decide⟩

/-- C7 (amended): for every comment batch item that reaches dispatch, the
composed text equals "@" + (the username with every "@" removed) + " " +
(the message override if present and non-empty, else "Great post! 👍"),
posted as a reply to the extracted identifier; in particular username
"@alice" with no message composes "@alice Great post! 👍". -/
theorem C7_comment_text_amended (c : TwitterClient) (m : Option String)
    (a : Attendee) (tid : String)
    (hx : extract_tweet_id a.post_link = some tid) :
    (commentItem c m a).2.2.head? =
      some (.callPost
        ("@" ++ removeAtSigns a.username ++ " " ++ pyOrStr m "Great post! 👍")
        tid) ∧
    comment_text none { username := "@alice", post_link := a.post_link } =
      "@alice Great post! 👍" := by
  constructor
  · cases hpt : c.post_tweet (comment_text m a) tid with
    | ok r => rw [commentItem_ok_trace c m a tid r hx hpt]; rfl
    | error e => rw [commentItem_error c m a tid e hx hpt]; rfl
  · rfl

theorem C7_witness :
    extract_tweet_id "https://x.com/alice/status/7" = some "7" ∧
    (commentItem clientOk none
      { username := "@alice", post_link := "https://x.com/alice/status/7" }).2.2.head? =
      some (.callPost "@alice Great post! 👍" "7") ∧
    comment_text none
      { username := "@alice", post_link := "https://x.com/alice/status/7" } =
      "@alice Great post! 👍" := by
  have h := C7_comment_text_amended clientOk none
    { username := "@alice", post_link := "https://x.com/alice/status/7" } "7"
    (by decide)
  exact ⟨by decide, h.1.trans (by decide), h.2⟩

/-- C9: both discovery handlers clamp the requested `max_results` into
[1, 100] before delegating to the engine, pass exactly the clamped value to
the engine, and echo it as `requested_limit`; 150 clamps to 100, 0 clamps
to 1, and 42 passes through unchanged. -/
theorem C9_clamping {α β : Type} (engE : Int → List α) (engA : Int → List β)
    (n : Int) :
    (1 ≤ (discover_events engE n).requested_limit ∧
     (discover_events engE n).requested_limit ≤ 100) ∧
    (discover_events engE n).records =
      engE ((discover_events engE n).requested_limit) ∧
    (discover_attendees engA n).requested_limit =
      (discover_events engE n).requested_limit ∧
    (discover_attendees engA n).records =
      engA ((discover_attendees engA n).requested_limit) ∧
    ((discover_events engE 150).requested_limit = 100 ∧
     (discover_events engE 0).requested_limit = 1 ∧
     (discover_events engE 42).requested_limit = 42) ∧
    ((discover_attendees engA 150).requested_limit = 100 ∧
     (discover_attendees engA 0).requested_limit = 1 ∧
     (discover_attendees engA 42).requested_limit = 42) := by
  refine ⟨⟨?_, ?_⟩, rfl, rfl, rfl, ⟨rfl, rfl, rfl⟩, ⟨rfl, rfl, rfl⟩⟩ <;>
  · simp only [discover_events]
    split_ifs <;> omega

theorem dropLit_some (lit : List Char) :
    ∀ l r, dropLit lit l = some r → l = lit ++ r := by
  induction lit with
  | nil =>
    intro l r h
    simpa [dropLit] using h
  | cons c cs ih =>
    intro l r h
    cases l with
    | nil => cases h
    | cons d ds =>
      unfold dropLit at h
      by_cases hcd : c = d
      · rw [if_pos hcd] at h
        have := ih ds r h
        rw [List.cons_append, ← hcd, this]
      · rw [if_neg hcd] at h
        cases h

theorem dropLit_append (lit r : List Char) : dropLit lit (lit ++ r) = some r := by
  induction lit with
  | nil => rfl
  | cons c cs ih => simp [dropLit, ih]

theorem matchLitDigits_some (lit : String) (l d : List Char)
    (h : matchLitDigits lit l = some d) :
    ∃ r, l = lit.toList ++ r ∧ d = r.takeWhile Char.isDigit ∧ d ≠ [] := by
  unfold matchLitDigits at h
  cases hdl : dropLit lit.toList l with
  | none => rw [hdl] at h; cases h
  | some r =>
    rw [hdl] at h
    dsimp only [] at h
    by_cases hd : r.takeWhile Char.isDigit = []
    · rw [if_pos hd] at h; cases h
    · rw [if_neg hd] at h
      injection h with h'
      exact ⟨r, dropLit_some _ _ _ hdl, h'.symm, h' ▸ hd⟩

theorem matchLitDigits_append (lit : String) (r : List Char)
    (hd : r.takeWhile Char.isDigit ≠ []) :
    matchLitDigits lit (lit.toList ++ r) = some (r.takeWhile Char.isDigit) := by
  unfold matchLitDigits
  rw [dropLit_append]
  dsimp only []
  rw [if_neg hd]

theorem matchHostUserStatus_some (host : String) (l d : List Char)
    (h : matchHostUserStatus host l = some d) :
    ∃ pre r2, l = pre ++ ("status/".toList ++ r2) ∧
      d = r2.takeWhile Char.isDigit ∧ d ≠ [] := by
  unfold matchHostUserStatus at h
  cases hdl : dropLit host.toList l with
  | none => rw [hdl] at h; cases h
  | some r1 =>
    rw [hdl] at h
    dsimp only [] at h
    by_cases hw : r1.takeWhile isWordChar = []
    · rw [if_pos hw] at h; cases h
    · rw [if_neg hw] at h
      cases hds : dropLit "/status/".toList (r1.dropWhile isWordChar) with
      | none => rw [hds] at h; cases h
      | some r2 =>
        rw [hds] at h
        dsimp only [] at h
        by_cases hd : r2.takeWhile Char.isDigit = []
        · rw [if_pos hd] at h; cases h
        · rw [if_neg hd] at h
          injection h with h'
          refine ⟨host.toList ++ r1.takeWhile isWordChar ++ ['/'], r2, ?_,
            h'.symm, h' ▸ hd⟩
          have h1 : l = host.toList ++ r1 := dropLit_some _ _ _ hdl
          have h2 : r1.dropWhile isWordChar = "/status/".toList ++ r2 :=
            dropLit_some _ _ _ hds
          have h3 : r1.takeWhile isWordChar ++ r1.dropWhile isWordChar = r1 :=
            List.takeWhile_append_dropWhile isWordChar r1
          have hsl : "/status/".toList = '/' :: "status/".toList := by decide
          have h4 : r1 = r1.takeWhile isWordChar ++
              ('/' :: ("status/".toList ++ r2)) := by
            conv_lhs => rw [← h3]
            rw [h2, hsl]
            simp
          calc l = host.toList ++ r1 := h1
            _ = host.toList ++ (r1.takeWhile isWordChar ++
                ('/' :: ("status/".toList ++ r2))) := by rw [← h4]
            _ = host.toList ++ r1.takeWhile isWordChar ++ ['/'] ++
                ("status/".toList ++ r2) := by simp

theorem searchP_eq_none_all (m : List Char → Option (List Char)) :
    ∀ l, searchP m l = none → ∀ t, t <:+ l → m t = none := by
  intro l
  induction l with
  | nil =>
    intro h t ht
    rw [List.suffix_nil.mp ht]
    exact h
  | cons c cs ih =>
    intro h t ht
    have h1 : m (c :: cs) = none ∧ searchP m cs = none := by
      unfold searchP at h
      cases hm : m (c :: cs) with
      | some r => rw [hm] at h; cases h
      | none => rw [hm] at h; exact ⟨rfl, h⟩
    rcases List.suffix_cons_iff.mp ht with heq | ht'
    · rw [heq]; exact h1.1
    · exact ih h1.2 t ht'

theorem searchP_eq_some_ex (m : List Char → Option (List Char)) :
    ∀ l d, searchP m l = some d → ∃ t, t <:+ l ∧ m t = some d := by
  intro l
  induction l with
  | nil => intro d h; exact ⟨[], List.suffix_rfl, h⟩
  | cons c cs ih =>
    intro d h
    unfold searchP at h
    cases hm : m (c :: cs) with
    | some r =>
      rw [hm] at h
      injection h with h'
      exact ⟨c :: cs, List.suffix_rfl, by rw [hm, h']⟩
    | none =>
      rw [hm] at h
      obtain ⟨t, ht, hmt⟩ := ih d h
      exact ⟨t, ht.trans (List.suffix_cons c cs), hmt⟩

theorem matchP2_sub (t d : List Char) (h : matchP2 t = some d) :
    ∃ pre r2, t = pre ++ ("status/".toList ++ r2) ∧
      d = r2.takeWhile Char.isDigit ∧ d ≠ [] :=
  matchHostUserStatus_some "twitter.com/" t d h

theorem matchP4_sub (t d : List Char) (h : matchP4 t = some d) :
    ∃ pre r2, t = pre ++ ("status/".toList ++ r2) ∧
      d = r2.takeWhile Char.isDigit ∧ d ≠ [] :=
  matchHostUserStatus_some "x.com/" t d h

theorem matchP3_sub (t d : List Char) (h : matchP3 t = some d) :
    ∃ pre r2, t = pre ++ ("status/".toList ++ r2) ∧
      d = r2.takeWhile Char.isDigit ∧ d ≠ [] := by
  obtain ⟨r, hl, hd, hne⟩ := matchLitDigits_some "twitter.com/status/" t d h
  refine ⟨"twitter.com/".toList, r, ?_, hd, hne⟩
  have htw : "twitter.com/status/".toList =
      "twitter.com/".toList ++ "status/".toList := by decide
  rw [hl, htw, List.append_assoc]

theorem searchP_none_of_p1_none (mm : List Char → Option (List Char))
    (hsub : ∀ t d, mm t = some d →
      ∃ pre r2, t = pre ++ ("status/".toList ++ r2) ∧
        d = r2.takeWhile Char.isDigit ∧ d ≠ [])
    (l : List Char) (h1 : searchP matchP1 l = none) : searchP mm l = none := by
  cases hs : searchP mm l with
  | none => rfl
  | some d =>
    obtain ⟨t, htl, hmt⟩ := searchP_eq_some_ex mm l d hs
    obtain ⟨pre, r2, hte, hd, hne⟩ := hsub t d hmt
    have hsuf : ("status/".toList ++ r2) <:+ l := by
      refine List.IsSuffix.trans ⟨pre, ?_⟩ htl
      rw [hte]
    have hm1 : matchP1 ("status/".toList ++ r2) =
        some (r2.takeWhile Char.isDigit) :=
      matchLitDigits_append "status/" r2 (hd ▸ hne)
    have hn := searchP_eq_none_all matchP1 l h1 _ hsuf
    rw [hn] at hm1
    cases hm1

theorem matchLitDigits_wf (lit : String) (t d : List Char)
    (h : matchLitDigits lit t = some d) :
    d ≠ [] ∧ d.all Char.isDigit = true := by
  obtain ⟨r, _, hd, hne⟩ := matchLitDigits_some lit t d h
  subst hd
  exact ⟨hne, List.all_takeWhile⟩

theorem matchHostUserStatus_wf (host : String) (t d : List Char)
    (h : matchHostUserStatus host t = some d) :
    d ≠ [] ∧ d.all Char.isDigit = true := by
  obtain ⟨pre, r2, _, hd, hne⟩ := matchHostUserStatus_some host t d h
  subst hd
  exact ⟨hne, List.all_takeWhile⟩

theorem searchP_wf (mm : List Char → Option (List Char))
    (hwf : ∀ t d, mm t = some d → d ≠ [] ∧ d.all Char.isDigit = true)
    (l d : List Char) (h : searchP mm l = some d) :
    d ≠ [] ∧ d.all Char.isDigit = true := by
  obtain ⟨t, _, hmt⟩ := searchP_eq_some_ex mm l d h
  exact hwf t d hmt

theorem extract_shape (s : String) :
    extract_tweet_id s = none ∨
      ∃ d : List Char, extract_tweet_id s = some (String.mk d) ∧
        d ≠ [] ∧ d.all Char.isDigit = true := by
  unfold extract_tweet_id
  dsimp only []
  cases h1 : searchP matchP1 s.toList with
  | some d =>
    exact Or.inr ⟨d, rfl, searchP_wf _ (fun t d => matchLitDigits_wf "status/" t d) _ d h1⟩
  | none =>
  cases h2 : searchP matchP2 s.toList with
  | some d =>
    exact Or.inr ⟨d, rfl,
      searchP_wf _ (fun t d => matchHostUserStatus_wf "twitter.com/" t d) _ d h2⟩
  | none =>
  cases h3 : searchP matchP3 s.toList with
  | some d =>
    exact Or.inr ⟨d, rfl,
      searchP_wf _ (fun t d => matchLitDigits_wf "twitter.com/status/" t d) _ d h3⟩
  | none =>
  cases h4 : searchP matchP4 s.toList with
  | some d =>
    exact Or.inr ⟨d, rfl,
      searchP_wf _ (fun t d => matchHostUserStatus_wf "x.com/" t d) _ d h4⟩
  | none => exact Or.inl rfl

/-- C8: the identifier extractor returns "12345" and "987" on the two
specification URLs, not-found on the status-free URL, and on every input it
returns normally with an ordinary optional value — `none` for malformed
input, or a non-empty all-digit identifier (the embedding is total: there is
no error outcome at all). -/
theorem C8_extract_contract :
    extract_tweet_id "https://twitter.com/user/status/12345" = some "12345" ∧
    extract_tweet_id "https://x.com/user/status/987" = some "987" ∧
    extract_tweet_id "https://example.com/no-status-here" = none ∧
    ∀ s : String, extract_tweet_id s = none ∨
      ∃ t : String, extract_tweet_id s = some t ∧ t ≠ "" ∧
        t.toList.all Char.isDigit = true := by
  refine ⟨by decide, by decide, by decide, fun s => ?_⟩
  rcases extract_shape s with h | ⟨d, hd, hne, hdig⟩
  · exact Or.inl h
  · refine Or.inr ⟨String.mk d, hd, ?_, hdig⟩
    intro hcon
    exact hne (congrArg String.data hcon)

/-- C10: the full extractor is extensionally equal to the simplified
extractor that searches only the single pattern `status/(\d+)` and returns
its first captured digit group: each of the three more specific patterns can
only match where that first pattern also matches, so they never influence
the result. -/
theorem C10_extract_refines (s : String) :
    extract_tweet_id s = simple_extract s := by
  unfold extract_tweet_id simple_extract
  dsimp only []
  cases h1 : searchP matchP1 s.toList with
  | some d => rfl
  | none =>
    have h2 := searchP_none_of_p1_none matchP2 matchP2_sub s.toList h1
    have h3 := searchP_none_of_p1_none matchP3 matchP3_sub s.toList h1
    have h4 := searchP_none_of_p1_none matchP4 matchP4_sub s.toList h1
    rw [h2, h3, h4]
    rfl

end Backend
